import Mathlib

/-!
Verification of the maybe library: Option and Result containers with
async (promise-wrapped) variants. Each definition is a shallow embedding
of the corresponding TypeScript class method or free function.
-/

namespace Maybe

/-- The kinds of error thrown by the library, one constructor per error
class: UnwrapNoneError (src/option, thrown by None.unwrap and
None.expect), EmptyResultError (src/result/err.ts, thrown by Err.unwrap
and Err.expect) and UnwrapOkError (thrown by Ok.unwrapErr and
Ok.expectErr). -/
inductive ErrKind where
  | unwrapNoneError
  | emptyResultError
  | unwrapOkError
  deriving DecidableEq, Repr

/-- A thrown JavaScript error: its class (kind) and its message. -/
structure JsError where
  kind : ErrKind
  message : String
  deriving DecidableEq, Repr

/-- The Option container of src/src/option: either Some (a wrapped
value) or None. -/
inductive Opt (α : Type) where
  | some (value : α)
  | none
  deriving DecidableEq, Repr

/-- The Result container of src/src/result: either Ok (a success value)
or Err (an error value). -/
inductive Res (α : Type) (ε : Type) where
  | ok (value : α)
  | err (error : ε)
  deriving DecidableEq, Repr

namespace Opt

/-- Some.isSome returns true; None.isSome returns false. -/
def isSome {α : Type} : Opt α → Bool
  | .some _ => true
  | .none => false

/-- Some.isNone returns false; None.isNone returns true. -/
def isNone {α : Type} : Opt α → Bool
  | .some _ => false
  | .none => true

/-- Some.map wraps fn of the value in a new Some; None.map returns this. -/
def map {α β : Type} : Opt α → (α → β) → Opt β
  | .some v, fn => .some (fn v)
  | .none, _ => .none

/-- Some.and returns the other option; None.and returns this. -/
def and {α β : Type} : Opt α → Opt β → Opt β
  | .some _, option => option
  | .none, _ => .none

/-- Some.andThen returns fn of the value; None.andThen returns this. -/
def andThen {α β : Type} : Opt α → (α → Opt β) → Opt β
  | .some v, fn => fn v
  | .none, _ => .none

/-- Some.expect returns the value, ignoring the message; None.expect
throws an UnwrapNoneError carrying the message. -/
def expect {α : Type} : Opt α → String → Except JsError α
  | .some v, _ => .ok v
  | .none, message => .error ⟨.unwrapNoneError, message⟩

/-- Some.unwrap returns the value; None.unwrap throws an
UnwrapNoneError with message "unwrap called on None". -/
def unwrap {α : Type} : Opt α → Except JsError α
  | .some v => .ok v
  | .none => .error ⟨.unwrapNoneError, "unwrap called on None"⟩

/-- Some.mapOr ignores the default and maps; None.mapOr wraps the
default in Some. -/
def mapOr {α β : Type} : Opt α → β → (α → β) → Opt β
  | .some v, _, fn => (Opt.some v).map fn
  | .none, or, _ => .some or

/-- Some.mapOrElse ignores the default callback and maps; None.mapOrElse
wraps the result of the default callback in Some. -/
def mapOrElse {α β : Type} : Opt α → (Unit → β) → (α → β) → Opt β
  | .some v, _, fn => (Opt.some v).map fn
  | .none, or, _ => .some (or ())

/-- Some.or returns this; None.or returns the other option. -/
def or {α : Type} : Opt α → Opt α → Opt α
  | .some v, _ => .some v
  | .none, option => option

/-- Some.orElse returns this (via this.or()); None.orElse returns the
result of the callback. -/
def orElse {α : Type} : Opt α → (Unit → Opt α) → Opt α
  | .some v, _ => .some v
  | .none, fn => fn ()

/-- Some.unwrapOr returns the wrapped value; None.unwrapOr returns the
default. -/
def unwrapOr {α : Type} : Opt α → α → α
  | .some v, _ => v
  | .none, value => value

/-- Some.xor returns None when the other option is Some, else this;
None.xor returns the other option. -/
def xor {α : Type} : Opt α → Opt α → Opt α
  | .some v, option => if option.isSome then .none else .some v
  | .none, option => option

/-- Some.zip maps the other option, pairing this value with the other
value; None.zip returns this. -/
def zip {α β : Type} : Opt α → Opt β → Opt (α × β)
  | .some a, option => option.map (fun value => (a, value))
  | .none, _ => .none

/-- Some.zipWith maps the other option, combining the two values with
fn; None.zipWith returns this. -/
def zipWith {α β γ : Type} : Opt α → Opt β → (α → β → γ) → Opt γ
  | .some a, option, fn => option.map (fun value => fn a value)
  | .none, _, _ => .none

/-- Option.flatten: returns option.unwrapOr(none()). -/
def flatten {α : Type} (option : Opt (Opt α)) : Opt α :=
  option.unwrapOr .none

end Opt

/-- A JavaScript value that is null, undefined, or a proper value, as
accepted by Option.fromOptional. -/
inductive Nullable (α : Type) where
  | jsNull
  | jsUndefined
  | value (a : α)
  deriving DecidableEq, Repr

/-- True exactly on null and undefined: the condition tested by
Option.fromOptional. -/
def Nullable.isNullLike {α : Type} : Nullable α → Bool
  | .jsNull => true
  | .jsUndefined => true
  | .value _ => false

/-- A small universe of JavaScript primitive values, enough to express
the falsy values 0, the empty string, false and NaN. -/
inductive JSValue where
  | num (n : Int)
  | nan
  | str (s : String)
  | bool (b : Bool)
  deriving DecidableEq, Repr

/-- Option.fromOptional: None when the argument is null or undefined,
otherwise Some of the argument. -/
def Opt.fromOptional {α : Type} : Nullable α → Opt α
  | .jsNull => .none
  | .jsUndefined => .none
  | .value a => .some a

namespace Res

/-- Ok.isOk returns true; Err.isOk returns false. -/
def isOk {α ε : Type} : Res α ε → Bool
  | .ok _ => true
  | .err _ => false

/-- Ok.isErr returns false; Err.isErr returns true. -/
def isErr {α ε : Type} : Res α ε → Bool
  | .ok _ => false
  | .err _ => true

/-- Ok.map wraps fn of the value in a new Ok; Err.map returns this. -/
def map {α β ε : Type} : Res α ε → (α → β) → Res β ε
  | .ok v, fn => .ok (fn v)
  | .err e, _ => .err e

/-- Ok.and returns the other result; Err.and returns this. -/
def and {α β ε : Type} : Res α ε → Res β ε → Res β ε
  | .ok _, result => result
  | .err e, _ => .err e

/-- Ok.andThen returns fn of the value; Err.andThen returns this. -/
def andThen {α β ε : Type} : Res α ε → (α → Res β ε) → Res β ε
  | .ok v, fn => fn v
  | .err e, _ => .err e

/-- Ok.mapOr applies fn to the value and returns the bare result;
Err.mapOr returns the bare default. Unlike Option.mapOr, nothing is
re-wrapped. -/
def mapOr {α β ε : Type} : Res α ε → β → (α → β) → β
  | .ok v, _, fn => fn v
  | .err _, or, _ => or

/-- Ok.mapOrElse applies fn to the value and returns the bare result;
Err.mapOrElse returns the bare result of the default callback applied
to the error. -/
def mapOrElse {α β ε : Type} : Res α ε → (ε → β) → (α → β) → β
  | .ok v, _, fn => fn v
  | .err e, or, _ => or e

/-- Ok.or returns this; Err.or returns the other result. -/
def or {α ε : Type} : Res α ε → Res α ε → Res α ε
  | .ok v, _ => .ok v
  | .err _, result => result

/-- Ok.orElse returns this; Err.orElse returns fn of the error. -/
def orElse {α ε : Type} : Res α ε → (ε → Res α ε) → Res α ε
  | .ok v, _ => .ok v
  | .err e, fn => fn e

/-- Ok.expect returns the value, ignoring the message; Err.expect throws
an EmptyResultError carrying the message. -/
def expect {α ε : Type} : Res α ε → String → Except JsError α
  | .ok v, _ => .ok v
  | .err _, message => .error ⟨.emptyResultError, message⟩

/-- Ok.unwrap returns the value; Err.unwrap throws an EmptyResultError
with message "unwrap called on Err". -/
def unwrap {α ε : Type} : Res α ε → Except JsError α
  | .ok v => .ok v
  | .err _ => .error ⟨.emptyResultError, "unwrap called on Err"⟩

/-- Ok.expectErr throws an UnwrapOkError carrying the message;
Err.expectErr returns the error, ignoring the message. -/
def expectErr {α ε : Type} : Res α ε → String → Except JsError ε
  | .ok _, message => .error ⟨.unwrapOkError, message⟩
  | .err e, _ => .ok e

/-- Ok.unwrapErr throws an UnwrapOkError with message "unwrap error
called on Ok"; Err.unwrapErr returns the error. -/
def unwrapErr {α ε : Type} : Res α ε → Except JsError ε
  | .ok _ => .error ⟨.unwrapOkError, "unwrap error called on Ok"⟩
  | .err e => .ok e

end Res

/-- Result.transpose: Ok results map their inner option with Result.ok;
an Err result is wrapped whole in Some. -/
def Res.transpose {α ε : Type} : Res (Opt α) ε → Opt (Res α ε)
  | .ok option => option.map Res.ok
  | .err e => .some (.err e)

/-- Option.transpose: a Some option maps its inner result with
Option.some; None becomes Result.ok(none()). -/
def Opt.transpose {α ε : Type} : Opt (Res α ε) → Res (Opt α) ε
  | .some result => result.map (fun value => Opt.some value)
  | .none => .ok .none

/-- A settled JavaScript promise, modelled by the trace of observable
side effects its computation performed before settling together with the
value it settled to. Chaining with then appends traces, so a value
produced by a chain settles only after every effect in its trace has
occurred. -/
structure Prom (α : Type) where
  effects : List String
  value : α
  deriving Repr

/-- Promise.resolve: an already settled promise with no side effects. -/
def Prom.resolve {α : Type} (a : α) : Prom α :=
  ⟨[], a⟩

/-- promise.then(fn): the effects of the promise occur, then the effects
of the promise returned by fn; the chain settles to the value of the
latter. -/
def Prom.bind {α β : Type} (p : Prom α) (fn : α → Prom β) : Prom β :=
  ⟨p.effects ++ (fn p.value).effects, (fn p.value).value⟩

/-- AsyncOption wraps a promise of an Option. -/
structure AsyncOption (α : Type) where
  promise : Prom (Opt α)

namespace AsyncOption

/-- AsyncOption.fromPromiseOfOption wraps the promise directly. -/
def fromPromiseOfOption {α : Type} (promise : Prom (Opt α)) :
    AsyncOption α :=
  ⟨promise⟩

/-- AsyncOption.fromOption lifts via Promise.resolve. -/
def fromOption {α : Type} (option : Opt α) : AsyncOption α :=
  fromPromiseOfOption (Prom.resolve option)

/-- AsyncOption.some wraps a value. -/
def some {α : Type} (value : α) : AsyncOption α :=
  fromOption (.some value)

/-- AsyncOption.none is the lifted empty option. -/
def none {α : Type} : AsyncOption α :=
  fromOption .none

/-- AsyncOption.asPromise exposes the underlying promise. -/
def asPromise {α : Type} (a : AsyncOption α) : Prom (Opt α) :=
  a.promise

/-- AsyncOption.unwrapAnd: awaits this promise, then awaits the other
promise, then combines the two settled options with fn. -/
def unwrapAnd {α β γ : Type} (a : AsyncOption α) (other : AsyncOption β)
    (fn : Opt α → Opt β → Opt γ) : AsyncOption γ :=
  ⟨a.promise.bind fun option =>
    other.asPromise.bind fun otherOption =>
      Prom.resolve (fn option otherOption)⟩

/-- AsyncOption.and defers to unwrapAnd with Option.and. -/
def and {α β : Type} (a : AsyncOption α) (option : AsyncOption β) :
    AsyncOption β :=
  a.unwrapAnd option (fun x y => x.and y)

/-- AsyncOption.or defers to unwrapAnd with Option.or. -/
def or {α : Type} (a : AsyncOption α) (option : AsyncOption α) :
    AsyncOption α :=
  a.unwrapAnd option (fun x y => x.or y)

/-- AsyncOption.xor defers to unwrapAnd with Option.xor. -/
def xor {α : Type} (a : AsyncOption α) (option : AsyncOption α) :
    AsyncOption α :=
  a.unwrapAnd option (fun x y => x.xor y)

/-- AsyncOption.zip defers to unwrapAnd with Option.zip. -/
def zip {α β : Type} (a : AsyncOption α) (option : AsyncOption β) :
    AsyncOption (α × β) :=
  a.unwrapAnd option (fun x y => x.zip y)

/-- AsyncOption.zipWith defers to unwrapAnd with Option.zipWith. -/
def zipWith {α β γ : Type} (a : AsyncOption α) (option : AsyncOption β)
    (fn : α → β → γ) : AsyncOption γ :=
  a.unwrapAnd option (fun x y => x.zipWith y fn)

/-- AsyncOption.andThen: once this promise settles, if Some it chains
into the async option returned by fn, else it resolves to None without
touching fn. -/
def andThen {α β : Type} (a : AsyncOption α)
    (fn : α → AsyncOption β) : AsyncOption β :=
  ⟨a.promise.bind fun option =>
    match option with
    | .some v => (fn v).asPromise
    | .none => Prom.resolve .none⟩

/-- AsyncOption.orElse: once this promise settles, if Some it resolves
to that same option, else it chains into the async option returned by
fn. -/
def orElse {α : Type} (a : AsyncOption α)
    (fn : Unit → AsyncOption α) : AsyncOption α :=
  ⟨a.promise.bind fun option =>
    if option.isSome then Prom.resolve option else (fn ()).asPromise⟩

/-- AsyncOption.map applies Option.map once the promise settles. -/
def map {α β : Type} (a : AsyncOption α) (fn : α → β) :
    AsyncOption β :=
  ⟨a.promise.bind fun option => Prom.resolve (option.map fn)⟩

/-- AsyncOption.isSome applies Option.isSome once the promise settles. -/
def isSome {α : Type} (a : AsyncOption α) : Prom Bool :=
  a.promise.bind fun option => Prom.resolve option.isSome

/-- AsyncOption.isNone applies Option.isNone once the promise settles. -/
def isNone {α : Type} (a : AsyncOption α) : Prom Bool :=
  a.promise.bind fun option => Prom.resolve option.isNone

/-- AsyncOption.unwrap applies Option.unwrap once the promise settles. -/
def unwrap {α : Type} (a : AsyncOption α) : Prom (Except JsError α) :=
  a.promise.bind fun option => Prom.resolve option.unwrap

/-- AsyncOption.expect applies Option.expect once the promise settles. -/
def expect {α : Type} (a : AsyncOption α) (message : String) :
    Prom (Except JsError α) :=
  a.promise.bind fun option => Prom.resolve (option.expect message)

end AsyncOption

/-- AsyncResult wraps a promise of a Result. -/
structure AsyncResult (α : Type) (ε : Type) where
  promise : Prom (Res α ε)

namespace AsyncResult

/-- AsyncResult.fromPromiseOfResult wraps the promise directly. -/
def fromPromiseOfResult {α ε : Type} (promise : Prom (Res α ε)) :
    AsyncResult α ε :=
  ⟨promise⟩

/-- AsyncResult.fromResult lifts via Promise.resolve. -/
def fromResult {α ε : Type} (result : Res α ε) : AsyncResult α ε :=
  fromPromiseOfResult (Prom.resolve result)

/-- AsyncResult.ok wraps a success value. -/
def ok {α ε : Type} (value : α) : AsyncResult α ε :=
  fromResult (.ok value)

/-- AsyncResult.err wraps an error value. -/
def err {α ε : Type} (error : ε) : AsyncResult α ε :=
  fromResult (.err error)

/-- AsyncResult.asPromise exposes the underlying promise. -/
def asPromise {α ε : Type} (a : AsyncResult α ε) : Prom (Res α ε) :=
  a.promise

/-- AsyncResult.unwrapAnd: awaits this promise, then awaits the other
promise, then combines the two settled results with fn. -/
def unwrapAnd {α β γ ε : Type} (a : AsyncResult α ε)
    (other : AsyncResult β ε)
    (fn : Res α ε → Res β ε → Res γ ε) : AsyncResult γ ε :=
  ⟨a.promise.bind fun result =>
    other.asPromise.bind fun otherResult =>
      Prom.resolve (fn result otherResult)⟩

/-- AsyncResult.and defers to unwrapAnd with Result.and. -/
def and {α β ε : Type} (a : AsyncResult α ε)
    (result : AsyncResult β ε) : AsyncResult β ε :=
  a.unwrapAnd result (fun x y => x.and y)

/-- AsyncResult.or defers to unwrapAnd with Result.or. -/
def or {α ε : Type} (a : AsyncResult α ε)
    (result : AsyncResult α ε) : AsyncResult α ε :=
  a.unwrapAnd result (fun x y => x.or y)

/-- AsyncResult.andThen: once this promise settles, if Ok it chains into
the async result returned by fn, else it resolves to the same error
without touching fn. -/
def andThen {α β ε : Type} (a : AsyncResult α ε)
    (fn : α → AsyncResult β ε) : AsyncResult β ε :=
  ⟨a.promise.bind fun result =>
    match result with
    | .ok v => (fn v).asPromise
    | .err e => Prom.resolve (.err e)⟩

/-- AsyncResult.orElse: once this promise settles, if Err it chains into
the async result returned by fn applied to the error, else it resolves
to the same result. -/
def orElse {α ε : Type} (a : AsyncResult α ε)
    (fn : ε → AsyncResult α ε) : AsyncResult α ε :=
  ⟨a.promise.bind fun result =>
    match result with
    | .err e => (fn e).asPromise
    | .ok v => Prom.resolve (.ok v)⟩

end AsyncResult

/-- C1: transpose is a two-sided round trip between the two nested
representations: for every Result of an Option, applying
Result.transpose and then Option.transpose yields a structurally equal
result; and the six single-step mappings hold: transpose(ok(none)) is
none, transpose(none) is ok(none), transpose(ok(some v)) is some(ok v),
transpose(some(ok v)) is ok(some v), transpose(some(err e)) is err e,
and transpose(err e) is some(err e). -/
theorem c1_transpose_round_trip {α ε : Type} :
    (∀ r : Res (Opt α) ε, Opt.transpose (Res.transpose r) = r)
    ∧ Res.transpose (.ok .none : Res (Opt α) ε) = .none
    ∧ Opt.transpose (.none : Opt (Res α ε)) = .ok .none
    ∧ (∀ v : α, Res.transpose (.ok (.some v) : Res (Opt α) ε)
        = .some (.ok v))
    ∧ (∀ v : α, Opt.transpose (.some (.ok v) : Opt (Res α ε))
        = .ok (.some v))
    ∧ (∀ e : ε, Opt.transpose (.some (.err e) : Opt (Res α ε)) = .err e)
    ∧ (∀ e : ε, Res.transpose (.err e : Res (Opt α) ε)
        = .some (.err e)) := by
  refine ⟨?_, rfl, rfl, fun v => rfl, fun v => rfl, fun e => rfl,
    fun e => rfl⟩
  rintro (⟨v | _⟩ | e) <;> rfl

/-- C2: every binary combinator on the async wrappers (and, or, xor,
zip, zipWith on AsyncOption; and, or on AsyncResult) settles only after
both operands have settled: its effect trace is the first operand's
trace followed by the second operand's trace, so both operands' side
effects occur before the combined result settles — in particular
AsyncOption.none().and(p) still performs all of p's effects. -/
theorem c2_async_binary_awaits_both {α β γ ε : Type} :
    (∀ (a : AsyncOption α) (b : AsyncOption β),
      (a.and b).promise.effects
        = a.promise.effects ++ b.promise.effects)
    ∧ (∀ a b : AsyncOption α,
      (a.or b).promise.effects
        = a.promise.effects ++ b.promise.effects)
    ∧ (∀ a b : AsyncOption α,
      (a.xor b).promise.effects
        = a.promise.effects ++ b.promise.effects)
    ∧ (∀ (a : AsyncOption α) (b : AsyncOption β),
      (a.zip b).promise.effects
        = a.promise.effects ++ b.promise.effects)
    ∧ (∀ (a : AsyncOption α) (b : AsyncOption β) (fn : α → β → γ),
      (a.zipWith b fn).promise.effects
        = a.promise.effects ++ b.promise.effects)
    ∧ (∀ (a : AsyncResult α ε) (b : AsyncResult β ε),
      (a.and b).promise.effects
        = a.promise.effects ++ b.promise.effects)
    ∧ (∀ a b : AsyncResult α ε,
      (a.or b).promise.effects
        = a.promise.effects ++ b.promise.effects)
    ∧ (∀ p : AsyncOption α,
      ((AsyncOption.none : AsyncOption β).and p).promise.effects
        = p.promise.effects) := by
  refine ⟨fun a b => ?_, fun a b => ?_, fun a b => ?_, fun a b => ?_,
    fun a b fn => ?_, fun a b => ?_, fun a b => ?_, fun p => ?_⟩ <;>
    simp [AsyncOption.and, AsyncOption.or, AsyncOption.xor,
      AsyncOption.zip, AsyncOption.zipWith, AsyncOption.unwrapAnd,
      AsyncOption.asPromise, AsyncOption.none, AsyncOption.fromOption,
      AsyncOption.fromPromiseOfOption, AsyncResult.and, AsyncResult.or,
      AsyncResult.unwrapAnd, AsyncResult.asPromise, Prom.bind,
      Prom.resolve]

/-- C3: mirror law — lifting the operands of a synchronous Option or
Result combinator scenario into the async wrappers, applying the
same-named combinator and awaiting asPromise yields a container
structurally equal to the synchronous outcome, for and, or, xor, zip,
zipWith, map, andThen, orElse, isSome, isNone, unwrap and expect, and
in particular AsyncOption.some(1).zip(AsyncOption.none()) settles to
none. -/
theorem c3_async_mirror {α β γ ε : Type} :
    (∀ (o : Opt α) (o2 : Opt β),
      ((AsyncOption.fromOption o).and
        (AsyncOption.fromOption o2)).asPromise.value = o.and o2)
    ∧ (∀ o o2 : Opt α,
      ((AsyncOption.fromOption o).or
        (AsyncOption.fromOption o2)).asPromise.value = o.or o2)
    ∧ (∀ o o2 : Opt α,
      ((AsyncOption.fromOption o).xor
        (AsyncOption.fromOption o2)).asPromise.value = o.xor o2)
    ∧ (∀ (o : Opt α) (o2 : Opt β),
      ((AsyncOption.fromOption o).zip
        (AsyncOption.fromOption o2)).asPromise.value = o.zip o2)
    ∧ (∀ (o : Opt α) (o2 : Opt β) (fn : α → β → γ),
      ((AsyncOption.fromOption o).zipWith
        (AsyncOption.fromOption o2) fn).asPromise.value
        = o.zipWith o2 fn)
    ∧ (∀ (o : Opt α) (fn : α → β),
      ((AsyncOption.fromOption o).map fn).asPromise.value = o.map fn)
    ∧ (∀ (o : Opt α) (fn : α → Opt β),
      ((AsyncOption.fromOption o).andThen
        (fun x => AsyncOption.fromOption (fn x))).asPromise.value
        = o.andThen fn)
    ∧ (∀ (o : Opt α) (fn : Unit → Opt α),
      ((AsyncOption.fromOption o).orElse
        (fun x => AsyncOption.fromOption (fn x))).asPromise.value
        = o.orElse fn)
    ∧ (∀ o : Opt α,
      (AsyncOption.fromOption o).isSome.value = o.isSome
      ∧ (AsyncOption.fromOption o).isNone.value = o.isNone
      ∧ (AsyncOption.fromOption o).unwrap.value = o.unwrap)
    ∧ (∀ (o : Opt α) (msg : String),
      ((AsyncOption.fromOption o).expect msg).value = o.expect msg)
    ∧ (∀ (r : Res α ε) (r2 : Res β ε),
      ((AsyncResult.fromResult r).and
        (AsyncResult.fromResult r2)).asPromise.value = r.and r2)
    ∧ (∀ r r2 : Res α ε,
      ((AsyncResult.fromResult r).or
        (AsyncResult.fromResult r2)).asPromise.value = r.or r2)
    ∧ (∀ (r : Res α ε) (fn : α → Res β ε),
      ((AsyncResult.fromResult r).andThen
        (fun x => AsyncResult.fromResult (fn x))).asPromise.value
        = r.andThen fn)
    ∧ (∀ (r : Res α ε) (fn : ε → Res α ε),
      ((AsyncResult.fromResult r).orElse
        (fun e => AsyncResult.fromResult (fn e))).asPromise.value
        = r.orElse fn)
    ∧ ((AsyncOption.some (1 : Nat)).zip
        (AsyncOption.none : AsyncOption String)).asPromise.value
        = Opt.none := by
  refine ⟨fun o o2 => rfl, fun o o2 => rfl, fun o o2 => rfl,
    fun o o2 => rfl, fun o o2 fn => rfl, fun o fn => rfl,
    fun o fn => ?_, fun o fn => ?_,
    fun o => ⟨rfl, rfl, rfl⟩, fun o msg => rfl,
    fun r r2 => rfl, fun r r2 => rfl, fun r fn => ?_,
    fun r fn => ?_, rfl⟩
  · cases o <;> rfl
  · cases o <;> rfl
  · cases r <;> rfl
  · cases r <;> rfl

/-- C4: Result has exactly two distinguishable wrong-unwrap failure
kinds: on every Err, unwrap and expect throw the unwrap-on-failure kind
(EmptyResultError, with expect carrying the given message); on every
Ok, unwrapErr and expectErr throw the unwrap-on-success kind
(UnwrapOkError); and the two kinds differ. -/
theorem c4_result_two_failure_kinds {α ε : Type} :
    (∀ (e : ε) (msg : String),
      (Res.err e : Res α ε).unwrap
        = .error ⟨.emptyResultError, "unwrap called on Err"⟩
      ∧ (Res.err e : Res α ε).expect msg
        = .error ⟨.emptyResultError, msg⟩)
    ∧ (∀ (v : α) (msg : String),
      (Res.ok v : Res α ε).unwrapErr
        = .error ⟨.unwrapOkError, "unwrap error called on Ok"⟩
      ∧ (Res.ok v : Res α ε).expectErr msg
        = .error ⟨.unwrapOkError, msg⟩)
    ∧ ErrKind.emptyResultError ≠ ErrKind.unwrapOkError := by
  exact ⟨fun e msg => ⟨rfl, rfl⟩, fun v msg => ⟨rfl, rfl⟩, by decide⟩

/-- C5: unwrap on None throws the dedicated absent-value kind
(UnwrapNoneError), expect on None throws the same kind carrying the
given message, both return the wrapped value without error on Some, and
the absent-value kind differs from every other error kind of the
library. All other Option operations are total functions of the
embedding and cannot fail. -/
theorem c5_option_unwrap_none_kind {α : Type} :
    ((Opt.none : Opt α).unwrap
      = .error ⟨.unwrapNoneError, "unwrap called on None"⟩)
    ∧ (∀ msg : String,
      (Opt.none : Opt α).expect msg = .error ⟨.unwrapNoneError, msg⟩)
    ∧ (∀ v : α, (Opt.some v).unwrap = .ok v)
    ∧ (∀ (v : α) (msg : String), (Opt.some v).expect msg = .ok v)
    ∧ ErrKind.unwrapNoneError ≠ ErrKind.emptyResultError
    ∧ ErrKind.unwrapNoneError ≠ ErrKind.unwrapOkError := by
  exact ⟨rfl, fun msg => rfl, fun v => rfl, fun v msg => rfl,
    by decide, by decide⟩

/-- C6: Result.mapOr and Result.mapOrElse return a bare value — the
default (or the default callback applied to the error) on Err, fn of
the value on Ok — whereas Option.mapOr and Option.mapOrElse wrap the
chosen value in Some. -/
theorem c6_mapOr_asymmetry {α β ε : Type} :
    (∀ (v : α) (d : β) (fn : α → β),
      (Res.ok v : Res α ε).mapOr d fn = fn v)
    ∧ (∀ (e : ε) (d : β) (fn : α → β),
      (Res.err e : Res α ε).mapOr d fn = d)
    ∧ (∀ (v : α) (dfn : ε → β) (fn : α → β),
      (Res.ok v : Res α ε).mapOrElse dfn fn = fn v)
    ∧ (∀ (e : ε) (dfn : ε → β) (fn : α → β),
      (Res.err e : Res α ε).mapOrElse dfn fn = dfn e)
    ∧ (∀ (v : α) (d : β) (fn : α → β),
      (Opt.some v).mapOr d fn = Opt.some (fn v))
    ∧ (∀ (d : β) (fn : α → β),
      (Opt.none : Opt α).mapOr d fn = Opt.some d)
    ∧ (∀ (v : α) (dfn : Unit → β) (fn : α → β),
      (Opt.some v).mapOrElse dfn fn = Opt.some (fn v))
    ∧ (∀ (dfn : Unit → β) (fn : α → β),
      (Opt.none : Opt α).mapOrElse dfn fn = Opt.some (dfn ())) := by
  exact ⟨fun v d fn => rfl, fun e d fn => rfl, fun v dfn fn => rfl,
    fun e dfn fn => rfl, fun v d fn => rfl, fun d fn => rfl,
    fun v dfn fn => rfl, fun dfn fn => rfl⟩

/-- C7: andThen is associative — chaining f then g equals chaining the
composite callback, for both Some and None. -/
theorem c7_andThen_assoc {α β γ : Type} (opt : Opt α) (f : α → Opt β)
    (g : β → Opt γ) :
    (opt.andThen f).andThen g
      = opt.andThen (fun x => (f x).andThen g) := by
  cases opt <;> rfl

/-- C7 witness at a concrete input. -/
theorem c7_andThen_assoc_witness :
    ((Opt.some 2).andThen (fun n => Opt.some (n + 1))).andThen
        (fun n => Opt.some (n * 2))
      = (Opt.some 2).andThen
        (fun n => (Opt.some (n + 1)).andThen
          (fun m => Opt.some (m * 2))) :=
  c7_andThen_assoc (Opt.some 2) (fun n => Opt.some (n + 1))
    (fun n => Opt.some (n * 2))

/-- C8: flatten removes exactly one level of nesting — some(some v)
flattens to some v, some(some(some v)) flattens to some(some v), none
flattens to none — and flatten is exactly unwrapOr(none()). -/
theorem c8_flatten_one_level {α : Type} :
    (∀ v : α, Opt.flatten (Opt.some (Opt.some v)) = Opt.some v)
    ∧ (∀ v : α,
      Opt.flatten (Opt.some (Opt.some (Opt.some v)))
        = Opt.some (Opt.some v))
    ∧ Opt.flatten (Opt.none : Opt (Opt α)) = Opt.none
    ∧ (∀ option : Opt (Opt α),
      Opt.flatten option = option.unwrapOr .none) := by
  exact ⟨fun v => rfl, fun v => rfl, rfl, fun option => rfl⟩

/-- C9: fromOptional returns None exactly when the argument is
null-like, otherwise Some of the argument; in particular each
non-null-like falsy value (0, empty string, false, NaN) is wrapped in
Some. -/
theorem c9_fromOptional_null_like {α : Type} :
    (∀ x : Nullable α,
      (Opt.fromOptional x = .none ↔ x.isNullLike = true))
    ∧ (∀ a : α, Opt.fromOptional (.value a) = .some a)
    ∧ Opt.fromOptional (.value (JSValue.num 0))
      = .some (JSValue.num 0)
    ∧ Opt.fromOptional (.value (JSValue.str ""))
      = .some (JSValue.str "")
    ∧ Opt.fromOptional (.value (JSValue.bool false))
      = .some (JSValue.bool false)
    ∧ Opt.fromOptional (.value JSValue.nan) = .some JSValue.nan := by
  refine ⟨fun x => ?_, fun a => rfl, rfl, rfl, rfl, rfl⟩
  cases x <;> simp [Opt.fromOptional, Nullable.isNullLike]

/-- C10: the callback-taking async combinators do short-circuit: an
AsyncOption settling to None never invokes the andThen callback — for
every callback, even one whose wrapper carries observable effects, the
result keeps exactly the original trace and settles to None; dually an
AsyncOption settling to Some and an AsyncResult settling to Ok keep
exactly the original promise under orElse. -/
theorem c10_async_callback_short_circuit {α β ε : Type} :
    (∀ (es : List String) (fn : α → AsyncOption β),
      (AsyncOption.fromPromiseOfOption ⟨es, .none⟩).andThen fn
        = AsyncOption.fromPromiseOfOption ⟨es, .none⟩)
    ∧ (∀ (es : List String) (v : α) (fn : Unit → AsyncOption α),
      (AsyncOption.fromPromiseOfOption ⟨es, .some v⟩).orElse fn
        = AsyncOption.fromPromiseOfOption ⟨es, .some v⟩)
    ∧ (∀ (es : List String) (v : α) (fn : ε → AsyncResult α ε),
      (AsyncResult.fromPromiseOfResult ⟨es, .ok v⟩).orElse fn
        = AsyncResult.fromPromiseOfResult ⟨es, .ok v⟩) := by
  refine ⟨fun es fn => ?_, fun es v fn => ?_, fun es v fn => ?_⟩ <;>
    simp [AsyncOption.andThen, AsyncOption.orElse, AsyncResult.orElse,
      AsyncOption.fromPromiseOfOption, AsyncResult.fromPromiseOfResult,
      Prom.bind, Prom.resolve, Opt.isSome]

end Maybe
